import Mathlib

/-!
# Verification of `paramonte/_visualization.py`

The source file is a Python facade module whose whole executable body is
nine `from <module> import <name>` statements (lines 25-33):

```
from _visutils import ParaMonteFigure
from _visutils import Target
from _HistPlot import HistPlot
from _GridPlot import GridPlot
from _LinePlot import LinePlot
from _ScatterPlot import ScatterPlot
from _HeatMapPlot import HeatMapPlot
from _DensityMapPlot import DensityMapPlot
from _ScatterLinePlot import ScatterLinePlot
```

We embed the relevant fragment of Python module-loading semantics:

* objects are identified by `Obj` (a numeric identity, so that
  "reference-identical" is equality of identities);
* the collaborator environment `Env` maps module names to their
  attribute dictionaries;
* a module body is a list of statements `Stmt`; besides the
  `from M import X` form the statement type also has a wildcard import,
  a pure-computation statement and an output statement, so that "the
  body consists only of explicit imports" and "loading performs no
  computation and no I/O" are non-trivial facts about the embedded body
  rather than artifacts of the model;
* `execStmts` executes a body left to right over a `LoadState` that
  records the namespace built so far, the trace of statements attempted
  so far, an abstract external world and the output produced; a
  failing import aborts execution at once, returning the failing statement
  itself together with the state at the moment of failure (the uncaught
  `ImportError` of Python, propagated unchanged: there is no handler
  anywhere in the executor).
-/

/-- Object identities: two bindings are reference-identical exactly when
they carry the same `Obj`. -/
abbrev Obj := Nat

/-- The attribute dictionary of one collaborator module. -/
abbrev ModuleDict := List (String × Obj)

/-- The collaborator environment: which modules exist, and what each binds. -/
abbrev Env := List (String × ModuleDict)

/-- Look a module up in the environment (`none` = module unavailable). -/
def lookupModule (env : Env) (m : String) : Option ModuleDict :=
  match env with
  | [] => none
  | (k, d) :: rest => if k = m then some d else lookupModule rest m

/-- Look an attribute up in a module dictionary. -/
def lookupAttr (d : ModuleDict) (x : String) : Option Obj :=
  match d with
  | [] => none
  | (k, v) :: rest => if k = x then some v else lookupAttr rest x

/-- Resolution of `from m import x`: find the module, then the attribute;
`none` when either step fails (Python raises in both cases). -/
def importLookup (env : Env) (m x : String) : Option Obj :=
  match lookupModule env m with
  | none => none
  | some d => lookupAttr d x

/-- Statements of a Python module body, as far as this file needs them. -/
inductive Stmt where
  /-- `from module import name` -/
  | importFrom (module : String) (name : String)
  /-- `from module import *` -/
  | importStar (module : String)
  /-- any pure computation acting on the external world -/
  | compute (delta : Nat)
  /-- any output (I/O) statement -/
  | emit (msg : String)
deriving DecidableEq

/-- The module an import statement draws from (empty for non-imports). -/
def Stmt.srcModule : Stmt → String
  | .importFrom m _ => m
  | .importStar m => m
  | .compute _ => ""
  | .emit _ => ""

/-- The name bound by a `from M import X` statement (empty otherwise). -/
def Stmt.boundName : Stmt → String
  | .importFrom _ x => x
  | _ => ""

/-- Whether a statement is an explicit, wildcard-free `from M import X`. -/
def Stmt.isExplicitImport : Stmt → Bool
  | .importFrom _ _ => true
  | _ => false

/-- Python dict assignment on an insertion-ordered association list:
an existing key keeps its position and gets the new value, a new key is
appended at the end. -/
def dictSet (ns : List (String × Obj)) (x : String) (v : Obj) :
    List (String × Obj) :=
  match ns with
  | [] => [(x, v)]
  | (k, w) :: rest =>
    if k = x then (k, v) :: rest else (k, w) :: dictSet rest x v

/-- Bind every attribute of a module dictionary (used by `import *`). -/
def dictMerge (ns : List (String × Obj)) (d : ModuleDict) :
    List (String × Obj) :=
  d.foldl (fun a p => dictSet a p.1 p.2) ns

/-- The state threaded through execution of a module body. -/
structure LoadState where
  /-- the namespace built so far (insertion-ordered, like a Python dict) -/
  ns : List (String × Obj)
  /-- the statements attempted so far, in order -/
  attempted : List Stmt
  /-- everything observable outside the namespace and the output -/
  world : Nat
  /-- output produced so far -/
  output : List String
deriving DecidableEq

/-- Result of loading a module body: success with the final state, or the
first failing statement together with the state at the moment of failure. -/
inductive LoadResult where
  | ok (st : LoadState)
  | err (failed : Stmt) (st : LoadState)
deriving DecidableEq

/-- `true` exactly on successful loads. -/
def LoadResult.isOk : LoadResult → Bool
  | .ok _ => true
  | .err _ _ => false

/-- Execute a module body left to right.  Every statement is recorded in
`attempted` when reached; a failing import stops execution at once and
the error is returned as-is (no handler anywhere). -/
def execStmts (env : Env) : List Stmt → LoadState → LoadResult
  | [], st => .ok st
  | s :: rest, st =>
    match s with
    | .importFrom m x =>
      match importLookup env m x with
      | none =>
        .err (.importFrom m x) { st with attempted := st.attempted ++ [s] }
      | some v =>
        execStmts env rest
          { st with attempted := st.attempted ++ [s],
                    ns := dictSet st.ns x v }
    | .importStar m =>
      match lookupModule env m with
      | none =>
        .err (.importStar m) { st with attempted := st.attempted ++ [s] }
      | some d =>
        execStmts env rest
          { st with attempted := st.attempted ++ [s],
                    ns := dictMerge st.ns d }
    | .compute delta =>
      execStmts env rest
        { st with attempted := st.attempted ++ [s],
                  world := st.world + delta }
    | .emit msg =>
      execStmts env rest
        { st with attempted := st.attempted ++ [s],
                  output := st.output ++ [msg] }

/-- The body of `_visualization.py`: its nine import statements, in
source order (lines 25-33 of the file). -/
def visualizationBody : List Stmt :=
  [ .importFrom "_visutils" "ParaMonteFigure",
    .importFrom "_visutils" "Target",
    .importFrom "_HistPlot" "HistPlot",
    .importFrom "_GridPlot" "GridPlot",
    .importFrom "_LinePlot" "LinePlot",
    .importFrom "_ScatterPlot" "ScatterPlot",
    .importFrom "_HeatMapPlot" "HeatMapPlot",
    .importFrom "_DensityMapPlot" "DensityMapPlot",
    .importFrom "_ScatterLinePlot" "ScatterLinePlot" ]

/-- Loading the facade: run its body in collaborator environment `env`,
starting from an empty namespace, an empty trace, external world `w` and
no output. -/
def loadVisualization (env : Env) (w : Nat) : LoadResult :=
  execStmts env visualizationBody
    { ns := [], attempted := [], world := w, output := [] }

/-- The nine names the facade binds, in binding order. -/
def exportedNames : List String :=
  [ "ParaMonteFigure", "Target", "HistPlot", "GridPlot", "LinePlot",
    "ScatterPlot", "HeatMapPlot", "DensityMapPlot", "ScatterLinePlot" ]

/-- The eight collaborator modules the facade draws from. -/
def facadeModules : List String :=
  [ "_visutils", "_HistPlot", "_GridPlot", "_LinePlot", "_ScatterPlot",
    "_HeatMapPlot", "_DensityMapPlot", "_ScatterLinePlot" ]

/-- A concrete environment in which every collaborator is available,
with nine distinct object identities. -/
def fullEnv : Env :=
  [ ("_visutils", [("ParaMonteFigure", 1), ("Target", 2)]),
    ("_HistPlot", [("HistPlot", 3)]),
    ("_GridPlot", [("GridPlot", 4)]),
    ("_LinePlot", [("LinePlot", 5)]),
    ("_ScatterPlot", [("ScatterPlot", 6)]),
    ("_HeatMapPlot", [("HeatMapPlot", 7)]),
    ("_DensityMapPlot", [("DensityMapPlot", 8)]),
    ("_ScatterLinePlot", [("ScatterLinePlot", 9)]) ]

/-- `fullEnv` with the histogram-plot collaborator missing. -/
def histMissingEnv : Env :=
  [ ("_visutils", [("ParaMonteFigure", 1), ("Target", 2)]),
    ("_GridPlot", [("GridPlot", 4)]),
    ("_LinePlot", [("LinePlot", 5)]),
    ("_ScatterPlot", [("ScatterPlot", 6)]),
    ("_HeatMapPlot", [("HeatMapPlot", 7)]),
    ("_DensityMapPlot", [("DensityMapPlot", 8)]),
    ("_ScatterLinePlot", [("ScatterLinePlot", 9)]) ]

/-- The final state of a successful load against `fullEnv`. -/
def fullLoadState : LoadState :=
  { ns := [ ("ParaMonteFigure", 1), ("Target", 2), ("HistPlot", 3),
            ("GridPlot", 4), ("LinePlot", 5), ("ScatterPlot", 6),
            ("HeatMapPlot", 7), ("DensityMapPlot", 8),
            ("ScatterLinePlot", 9) ],
    attempted := visualizationBody, world := 0, output := [] }

/-- Like `fullLoadState` but for a load started in external world `5`. -/
def fullLoadStateAlt : LoadState := { fullLoadState with world := 5 }

/-- The state at the moment loading fails against `histMissingEnv`:
the first two imports succeeded, the third was attempted and failed. -/
def histFailState : LoadState :=
  { ns := [("ParaMonteFigure", 1), ("Target", 2)],
    attempted := [ .importFrom "_visutils" "ParaMonteFigure",
                   .importFrom "_visutils" "Target",
                   .importFrom "_HistPlot" "HistPlot" ],
    world := 0, output := [] }

/-- Characterization of every successful load of the facade: all
nine imports resolve, and the final state is exactly the nine resolved
bindings in source order, with the full body attempted, the external
world untouched and no output. -/
theorem load_ok_char (env : Env) (w : Nat) (st : LoadState)
    (h : loadVisualization env w = .ok st) :
    ∃ vF vT vH vG vL vS vM vD vC : Obj,
      importLookup env "_visutils" "ParaMonteFigure" = some vF ∧
      importLookup env "_visutils" "Target" = some vT ∧
      importLookup env "_HistPlot" "HistPlot" = some vH ∧
      importLookup env "_GridPlot" "GridPlot" = some vG ∧
      importLookup env "_LinePlot" "LinePlot" = some vL ∧
      importLookup env "_ScatterPlot" "ScatterPlot" = some vS ∧
      importLookup env "_HeatMapPlot" "HeatMapPlot" = some vM ∧
      importLookup env "_DensityMapPlot" "DensityMapPlot" = some vD ∧
      importLookup env "_ScatterLinePlot" "ScatterLinePlot" = some vC ∧
      st = { ns := [("ParaMonteFigure", vF), ("Target", vT), ("HistPlot", vH),
                    ("GridPlot", vG), ("LinePlot", vL), ("ScatterPlot", vS),
                    ("HeatMapPlot", vM), ("DensityMapPlot", vD),
                    ("ScatterLinePlot", vC)],
             attempted := visualizationBody, world := w, output := [] } := by
  unfold loadVisualization visualizationBody at h
  simp only [execStmts] at h
  repeat' split at h
  any_goals cases h
  rename_i xa va ea xb vb eb xc vc ec xd vd ed xe ve ee xf vf ef xg vg eg
    xh vh eh xi vi ei
  exact ⟨va, vb, vc, vd, ve, vf, vg, vh, vi, ea, eb, ec, ed, ee, ef, eg, eh, ei,
    by simp [dictSet, visualizationBody]⟩

/-- Any failing execution of a body fails at some position `k`: the
failed statement is the statement at `k`, exactly the statements up to
and including `k` were attempted, and the failure is caused by an
unresolvable import (of either form). -/
theorem execStmts_err_spec (env : Env) :
    ∀ (body : List Stmt) (st : LoadState) (s : Stmt) (st' : LoadState),
      execStmts env body st = .err s st' →
      (∃ k, k < body.length ∧ body.get? k = some s ∧
        st'.attempted = st.attempted ++ body.take (k + 1)) ∧
      ((∃ m x, s = .importFrom m x ∧ importLookup env m x = none) ∨
       (∃ m, s = .importStar m ∧ lookupModule env m = none)) := by
  intro body
  induction body with
  | nil => intro st s st' h; simp [execStmts] at h
  | cons s0 rest ih =>
    intro st s st' h
    cases s0 with
    | importFrom m x =>
      simp only [execStmts] at h
      split at h
      · cases h
        refine ⟨⟨0, by simp, by simp, by simp⟩, .inl ⟨m, x, rfl, by assumption⟩⟩
      · obtain ⟨⟨k, hk, hget, hatt⟩, hcause⟩ := ih _ _ _ h
        refine ⟨⟨k + 1, by simpa using hk, by simpa using hget, ?_⟩, hcause⟩
        simp [hatt, List.take_succ_cons]
    | importStar m =>
      simp only [execStmts] at h
      split at h
      · cases h
        refine ⟨⟨0, by simp, by simp, by simp⟩, .inr ⟨m, rfl, by assumption⟩⟩
      · obtain ⟨⟨k, hk, hget, hatt⟩, hcause⟩ := ih _ _ _ h
        refine ⟨⟨k + 1, by simpa using hk, by simpa using hget, ?_⟩, hcause⟩
        simp [hatt, List.take_succ_cons]
    | compute delta =>
      simp only [execStmts] at h
      obtain ⟨⟨k, hk, hget, hatt⟩, hcause⟩ := ih _ _ _ h
      refine ⟨⟨k + 1, by simpa using hk, by simpa using hget, ?_⟩, hcause⟩
      simp [hatt, List.take_succ_cons]
    | emit msg =>
      simp only [execStmts] at h
      obtain ⟨⟨k, hk, hget, hatt⟩, hcause⟩ := ih _ _ _ h
      refine ⟨⟨k + 1, by simpa using hk, by simpa using hget, ?_⟩, hcause⟩
      simp [hatt, List.take_succ_cons]

/-- A resolvable `from m import x` implies module `m` is available. -/
theorem importLookup_some_module {env : Env} {m x : String} {v : Obj}
    (h : importLookup env m x = some v) : lookupModule env m ≠ none := by
  intro hnone
  rw [importLookup, hnone] at h
  cases h

/-- Claim C1, counterexample to the claim as stated: against `fullEnv`
the facade loads successfully and binds nine names, not eight, so the
count of "eight names" asserted by the spec does not equal the number of
names the module actually binds. -/
theorem facade_binds_nine_not_eight :
    loadVisualization fullEnv 0 = .ok fullLoadState ∧
    fullLoadState.ns.length = 9 ∧ ¬ fullLoadState.ns.length = 8 := by decide

/-- Claim C1 (amended): every successful load of the facade exposes
exactly the nine names `ParaMonteFigure`, `Target`, `HistPlot`,
`GridPlot`, `LinePlot`, `ScatterPlot`, `HeatMapPlot`, `DensityMapPlot`,
`ScatterLinePlot`, in that order and no others; the count of names bound
is nine. -/
theorem facade_exported_names (env : Env) (w : Nat) (st : LoadState)
    (h : loadVisualization env w = .ok st) :
    st.ns.map Prod.fst = exportedNames ∧ st.ns.length = 9 := by
  obtain ⟨vF, vT, vH, vG, vL, vS, vM, vD, vC,
    eqF, eqT, eqH, eqG, eqL, eqS, eqM, eqD, eqC, hst⟩ := load_ok_char env w st h
  subst hst
  simp [exportedNames]

/-- Witness for C1 (amended) at the concrete environment `fullEnv`. -/
theorem facade_exported_names_witness :
    fullLoadState.ns.map Prod.fst = exportedNames ∧ fullLoadState.ns.length = 9 :=
  facade_exported_names fullEnv 0 fullLoadState (by decide)

/-- Claim C2: on every successful load, each exported name is bound in
the facade namespace to the very same object the originating
collaborator binds it to — the namespace lookup and the collaborator
lookup yield identical object identities, so nothing is copied, wrapped,
transformed or mutated. -/
theorem facade_reference_identity (env : Env) (w : Nat) (st : LoadState)
    (h : loadVisualization env w = .ok st) :
    ∀ m x, Stmt.importFrom m x ∈ visualizationBody →
      lookupAttr st.ns x = importLookup env m x := by
  obtain ⟨vF, vT, vH, vG, vL, vS, vM, vD, vC,
    eqF, eqT, eqH, eqG, eqL, eqS, eqM, eqD, eqC, hst⟩ := load_ok_char env w st h
  subst hst
  intro m x hmem
  simp [visualizationBody] at hmem
  rcases hmem with hpx | hpx | hpx | hpx | hpx | hpx | hpx | hpx | hpx <;>
    obtain ⟨rfl, rfl⟩ := hpx <;> simp_all [lookupAttr]

/-- Witness for C2 at `fullEnv`, for the name `HistPlot`. -/
theorem facade_reference_identity_witness :
    lookupAttr fullLoadState.ns "HistPlot" = importLookup fullEnv "_HistPlot" "HistPlot" :=
  facade_reference_identity fullEnv 0 fullLoadState (by decide)
    "_HistPlot" "HistPlot" (by decide)

/-- Claim C3: if any one of the eight collaborator modules is
unavailable, loading the facade does not succeed — no final namespace is
ever produced (all-or-nothing initialization). -/
theorem facade_all_or_nothing (env : Env) (w : Nat) (m : String)
    (hm : m ∈ facadeModules) (hmiss : lookupModule env m = none) :
    (loadVisualization env w).isOk = false := by
  cases hres : loadVisualization env w with
  | err s st => rfl
  | ok st =>
    exfalso
    obtain ⟨vF, vT, vH, vG, vL, vS, vM, vD, vC,
      eqF, eqT, eqH, eqG, eqL, eqS, eqM, eqD, eqC, hst⟩ := load_ok_char env w st hres
    simp [facadeModules] at hm
    rcases hm with hq | hq | hq | hq | hq | hq | hq | hq
    · exact importLookup_some_module eqF (hq ▸ hmiss)
    · exact importLookup_some_module eqH (hq ▸ hmiss)
    · exact importLookup_some_module eqG (hq ▸ hmiss)
    · exact importLookup_some_module eqL (hq ▸ hmiss)
    · exact importLookup_some_module eqS (hq ▸ hmiss)
    · exact importLookup_some_module eqM (hq ▸ hmiss)
    · exact importLookup_some_module eqD (hq ▸ hmiss)
    · exact importLookup_some_module eqC (hq ▸ hmiss)

/-- Witness for C3: with the histogram-plot collaborator missing,
loading the facade fails. -/
theorem facade_all_or_nothing_witness :
    (loadVisualization histMissingEnv 0).isOk = false :=
  facade_all_or_nothing histMissingEnv 0 "_HistPlot" (by decide) (by decide)

/-- Claim C4: the failure surfaced by a failed load is exactly one of
the import statements of the body itself, untranslated, and its cause is
that the import does not resolve; moreover a load fails if and only if
some import statement of the body does not resolve — the only way
loading the facade can fail. -/
theorem facade_error_propagation (env : Env) (w : Nat) :
    (∀ s st, loadVisualization env w = .err s st →
      s ∈ visualizationBody ∧
      ∃ m x, s = Stmt.importFrom m x ∧ importLookup env m x = none) ∧
    ((loadVisualization env w).isOk = false ↔
      ∃ m x, Stmt.importFrom m x ∈ visualizationBody ∧
        importLookup env m x = none) := by
  constructor
  · intro s st h
    obtain ⟨⟨k, hk, hget, _⟩, hcause⟩ :=
      execStmts_err_spec env visualizationBody _ s st h
    have hmem : s ∈ visualizationBody := List.get?_mem hget
    refine ⟨hmem, ?_⟩
    rcases hcause with ⟨m, x, rfl, hnone⟩ | ⟨m, rfl, _⟩
    · exact ⟨m, x, rfl, hnone⟩
    · simp [visualizationBody] at hmem
  · constructor
    · intro hfail
      cases hres : loadVisualization env w with
      | ok st => rw [hres] at hfail; cases hfail
      | err s st =>
        obtain ⟨⟨k, hk, hget, _⟩, hcause⟩ :=
          execStmts_err_spec env visualizationBody _ s st hres
        have hmem : s ∈ visualizationBody := List.get?_mem hget
        rcases hcause with ⟨m, x, rfl, hnone⟩ | ⟨m, rfl, _⟩
        · exact ⟨m, x, hmem, hnone⟩
        · simp [visualizationBody] at hmem
    · rintro ⟨m, x, hmem, hnone⟩
      cases hres : loadVisualization env w with
      | err s st => rfl
      | ok st =>
        exfalso
        obtain ⟨vF, vT, vH, vG, vL, vS, vM, vD, vC,
          eqF, eqT, eqH, eqG, eqL, eqS, eqM, eqD, eqC, hst⟩ := load_ok_char env w st hres
        simp [visualizationBody] at hmem
        rcases hmem with hpx | hpx | hpx | hpx | hpx | hpx | hpx | hpx | hpx <;>
          obtain ⟨rfl, rfl⟩ := hpx <;> simp_all

/-- Witness for C4: the unresolvable histogram-plot import makes loading
fail, obtained through the equivalence at a concrete environment. -/
theorem facade_error_propagation_witness :
    (loadVisualization histMissingEnv 5).isOk = false :=
  (facade_error_propagation histMissingEnv 5).2.mpr
    ⟨"_HistPlot", "HistPlot", by decide, by decide⟩

/-- Claim C5: the facade body consists only of explicit import
statements, and a successful load leaves the external world exactly as
it was and produces no output — its only effect is the namespace it
builds. -/
theorem facade_no_side_effects :
    (∀ s ∈ visualizationBody, s.isExplicitImport = true) ∧
    ∀ env w st, loadVisualization env w = .ok st →
      st.world = w ∧ st.output = [] := by
  refine ⟨by decide, ?_⟩
  intro env w st h
  obtain ⟨vF, vT, vH, vG, vL, vS, vM, vD, vC,
    eqF, eqT, eqH, eqG, eqL, eqS, eqM, eqD, eqC, hst⟩ := load_ok_char env w st h
  subst hst
  exact ⟨rfl, rfl⟩

/-- Witness for C5 at the concrete environment `fullEnv`. -/
theorem facade_no_side_effects_witness :
    fullLoadState.world = 0 ∧ fullLoadState.output = [] :=
  facade_no_side_effects.2 fullEnv 0 fullLoadState (by decide)

/-- Claim C6: the seven plot constructors are imported by explicit,
wildcard-free imports, one per statement, each from its own module, and
those seven modules are pairwise distinct. -/
theorem plot_constructor_imports :
    visualizationBody.drop 2 =
      [ Stmt.importFrom "_HistPlot" "HistPlot",
        Stmt.importFrom "_GridPlot" "GridPlot",
        Stmt.importFrom "_LinePlot" "LinePlot",
        Stmt.importFrom "_ScatterPlot" "ScatterPlot",
        Stmt.importFrom "_HeatMapPlot" "HeatMapPlot",
        Stmt.importFrom "_DensityMapPlot" "DensityMapPlot",
        Stmt.importFrom "_ScatterLinePlot" "ScatterLinePlot" ] ∧
    ((visualizationBody.drop 2).map Stmt.srcModule).Nodup ∧
    ∀ s ∈ visualizationBody, s.isExplicitImport = true := by decide

/-- Claim C7: both `ParaMonteFigure` and `Target` are imported from
`_visutils`, and every import the body draws from `_visutils` binds one
of those two names — no plot constructor comes from that module. -/
theorem figure_target_from_visutils :
    Stmt.importFrom "_visutils" "ParaMonteFigure" ∈ visualizationBody ∧
    Stmt.importFrom "_visutils" "Target" ∈ visualizationBody ∧
    ∀ s ∈ visualizationBody, s.srcModule = "_visutils" →
      s.boundName = "ParaMonteFigure" ∨ s.boundName = "Target" := by decide

/-- Claim C8: a failed load fails at some position `k` of the body; the
surfaced statement is the one at position `k`, and exactly the
statements up to and including position `k` were attempted — once
an import fails, no later collaborator is ever loaded. -/
theorem facade_import_order (env : Env) (w : Nat) (s : Stmt) (st : LoadState)
    (h : loadVisualization env w = .err s st) :
    ∃ k, k < 9 ∧ visualizationBody.get? k = some s ∧
      st.attempted = visualizationBody.take (k + 1) := by
  obtain ⟨⟨k, hk, hget, hatt⟩, _⟩ :=
    execStmts_err_spec env visualizationBody _ s st h
  exact ⟨k, by simpa [visualizationBody] using hk, hget, by simpa using hatt⟩

/-- Witness for C8: against `histMissingEnv` the load fails at the third
statement, with exactly the first three statements attempted. -/
theorem facade_import_order_witness :
    ∃ k, k < 9 ∧
      visualizationBody.get? k = some (Stmt.importFrom "_HistPlot" "HistPlot") ∧
      histFailState.attempted = visualizationBody.take (k + 1) :=
  facade_import_order histMissingEnv 0 (Stmt.importFrom "_HistPlot" "HistPlot")
    histFailState (by decide)

/-- Claim C9: the nine names bound by the facade body are pairwise
distinct, so each name is bound exactly once and no import statement
shadows or rebinds a name introduced by an earlier one. -/
theorem facade_names_distinct :
    (visualizationBody.map Stmt.boundName).Nodup ∧
    visualizationBody.length = 9 := by decide

/-- Claim C10: loading is deterministic — any two successful loads
against the same collaborator environment, even started in different
external worlds, expose identical namespaces (same names bound to the
same objects). -/
theorem facade_deterministic (env : Env) (w1 w2 : Nat) (st1 st2 : LoadState)
    (h1 : loadVisualization env w1 = .ok st1)
    (h2 : loadVisualization env w2 = .ok st2) :
    st1.ns = st2.ns := by
  obtain ⟨vF, vT, vH, vG, vL, vS, vM, vD, vC,
    eqF, eqT, eqH, eqG, eqL, eqS, eqM, eqD, eqC, hst1⟩ := load_ok_char env w1 st1 h1
  obtain ⟨uF, uT, uH, uG, uL, uS, uM, uD, uC,
    euF, euT, euH, euG, euL, euS, euM, euD, euC, hst2⟩ := load_ok_char env w2 st2 h2
  subst hst1
  subst hst2
  simp_all

/-- Witness for C10: two loads against `fullEnv`, started in different
external worlds, expose the same namespace. -/
theorem facade_deterministic_witness :
    fullLoadState.ns = fullLoadStateAlt.ns :=
  facade_deterministic fullEnv 0 5 fullLoadState fullLoadStateAlt
    (by decide) (by decide)
